import Mathlib

/-!
# Verification of the euclid geometry library (matrix.rs, point.rs)

Shallow embedding of the `Matrix4` 4×4 homogeneous transform matrix and the
`Point2D`/`Point4D` value types, with the scalar type `f32` modelled by the
exact field `ℚ`.  Every definition mirrors the Rust source expression for
expression; spec-side definitions used for refinement comparisons are named
with a `Spec` suffix.
-/

namespace Euclid

/-- `Point2D<T>` from point.rs: an ordered pair of scalar components. -/
structure Point2D (T : Type) where
  x : T
  y : T
  deriving DecidableEq, Repr

namespace Point2D

/-- `Point2D::new` from point.rs. -/
def new {T : Type} (x y : T) : Point2D T := ⟨x, y⟩

/-- `Point2D::dot` from point.rs: `self.x * other.x + self.y * other.y`. -/
def dot {T : Type} [Mul T] [Add T] (p q : Point2D T) : T :=
  p.x * q.x + p.y * q.y

/-- `Point2D::cross` from point.rs: `self.x * other.y - self.y * other.x`. -/
def cross {T : Type} [Mul T] [Sub T] (p q : Point2D T) : T :=
  p.x * q.y - p.y * q.x

end Point2D

/-- `Point4D<T>` from point.rs: an ordered quadruple of scalar components. -/
structure Point4D (T : Type) where
  x : T
  y : T
  z : T
  w : T
  deriving DecidableEq, Repr

namespace Point4D

/-- `Point4D::new` from point.rs. -/
def new {T : Type} (x y z w : T) : Point4D T := ⟨x, y, z, w⟩

end Point4D

/-- `Length<Unit, T>` from length.rs (the typed-length wrapper point.rs builds
on): a scalar paired with a phantom unit marker that carries no runtime data. -/
structure Length (Unit : Type) (T : Type) where
  val : T
  deriving DecidableEq, Repr

namespace Length

/-- `Length::new` — wrap a scalar with the unit tag. -/
def new {Unit T : Type} (x : T) : Length Unit T := ⟨x⟩

/-- `Length::get` — the underlying scalar value. -/
def get {Unit T : Type} (l : Length Unit T) : T := l.val

/-- Modelled from the spec: the external "numeric cast" collaborator
(`NumCast`, not under src/) is "a capability that attempts to convert between
numeric representations, succeeding only when the value is exactly
representable in the target type, otherwise signaling no result".  We model
it as an arbitrary partial conversion function `c : T0 → Option T1`; `c v =
none` stands for "`v` is not exactly representable in `T1`".
`Length::cast` from length.rs applies it under the tag, preserving the unit. -/
def cast {Unit T0 T1 : Type} (c : T0 → Option T1) (l : Length Unit T0) :
    Option (Length Unit T1) :=
  (c l.get).map Length.new

end Length

/-- `TypedPoint2D<Unit, T>` from point.rs: `Point2D<Length<Unit, T>>`. -/
def TypedPoint2D (Unit : Type) (T : Type) : Type := Point2D (Length Unit T)

namespace Point2D

/-- `Point2D::to_untyped` from point.rs: drop the units, preserving only the
numeric values. -/
def to_untyped {Unit T : Type} (p : Point2D (Length Unit T)) : Point2D T :=
  Point2D.new p.x.get p.y.get

/-- `Point2D::from_untyped` from point.rs: tag a unitless point with units
(the unit marker is the explicit first argument, mirroring the turbofish at
Rust call sites). -/
def from_untyped (Unit : Type) {T : Type} (p : Point2D T) :
    Point2D (Length Unit T) :=
  Point2D.new (Length.new p.x) (Length.new p.y)

/-- `Point2D::cast` from point.rs: cast both components with the numeric-cast
capability `c`; `Some` exactly when both component casts succeed. -/
def cast {Unit T0 T1 : Type} (c : T0 → Option T1)
    (p : Point2D (Length Unit T0)) : Option (Point2D (Length Unit T1)) :=
  match p.x.cast c, p.y.cast c with
  | some x, some y => some (Point2D.new x y)
  | _, _ => none

end Point2D

/-- `Matrix4` from matrix.rs: 16 named scalar fields `m11..m44`, row-major. -/
structure Matrix4 where
  m11 : ℚ
  m12 : ℚ
  m13 : ℚ
  m14 : ℚ
  m21 : ℚ
  m22 : ℚ
  m23 : ℚ
  m24 : ℚ
  m31 : ℚ
  m32 : ℚ
  m33 : ℚ
  m34 : ℚ
  m41 : ℚ
  m42 : ℚ
  m43 : ℚ
  m44 : ℚ
  deriving DecidableEq, Repr

attribute [ext] Matrix4

namespace Matrix4

/-- `Matrix4::new` from matrix.rs: row-major construction, no validation. -/
def new (m11 m12 m13 m14 m21 m22 m23 m24 m31 m32 m33 m34 m41 m42 m43 m44 : ℚ) :
    Matrix4 :=
  ⟨m11, m12, m13, m14, m21, m22, m23, m24, m31, m32, m33, m34, m41, m42, m43, m44⟩

/-- `Matrix4::identity` from matrix.rs. -/
def identity : Matrix4 :=
  Matrix4.new 1 0 0 0
              0 1 0 0
              0 0 1 0
              0 0 0 1

/-- `Matrix4::mul` from matrix.rs, argument for argument: `self.mul(m)` with
`self = A` and `m = B` (so `mul A B` is the Rust `A.mul(&B)`). -/
def mul (self m : Matrix4) : Matrix4 :=
  Matrix4.new
    (m.m11*self.m11 + m.m12*self.m21 + m.m13*self.m31 + m.m14*self.m41)
    (m.m11*self.m12 + m.m12*self.m22 + m.m13*self.m32 + m.m14*self.m42)
    (m.m11*self.m13 + m.m12*self.m23 + m.m13*self.m33 + m.m14*self.m43)
    (m.m11*self.m14 + m.m12*self.m24 + m.m13*self.m34 + m.m14*self.m44)
    (m.m21*self.m11 + m.m22*self.m21 + m.m23*self.m31 + m.m24*self.m41)
    (m.m21*self.m12 + m.m22*self.m22 + m.m23*self.m32 + m.m24*self.m42)
    (m.m21*self.m13 + m.m22*self.m23 + m.m23*self.m33 + m.m24*self.m43)
    (m.m21*self.m14 + m.m22*self.m24 + m.m23*self.m34 + m.m24*self.m44)
    (m.m31*self.m11 + m.m32*self.m21 + m.m33*self.m31 + m.m34*self.m41)
    (m.m31*self.m12 + m.m32*self.m22 + m.m33*self.m32 + m.m34*self.m42)
    (m.m31*self.m13 + m.m32*self.m23 + m.m33*self.m33 + m.m34*self.m43)
    (m.m31*self.m14 + m.m32*self.m24 + m.m33*self.m34 + m.m34*self.m44)
    (m.m41*self.m11 + m.m42*self.m21 + m.m43*self.m31 + m.m44*self.m41)
    (m.m41*self.m12 + m.m42*self.m22 + m.m43*self.m32 + m.m44*self.m42)
    (m.m41*self.m13 + m.m42*self.m23 + m.m43*self.m33 + m.m44*self.m43)
    (m.m41*self.m14 + m.m42*self.m24 + m.m43*self.m34 + m.m44*self.m44)

/-- `Matrix4::determinant` from matrix.rs: the unrolled 24-term cofactor
expansion, term for term. -/
def determinant (self : Matrix4) : ℚ :=
  self.m14 * self.m23 * self.m32 * self.m41 -
  self.m13 * self.m24 * self.m32 * self.m41 -
  self.m14 * self.m22 * self.m33 * self.m41 +
  self.m12 * self.m24 * self.m33 * self.m41 +
  self.m13 * self.m22 * self.m34 * self.m41 -
  self.m12 * self.m23 * self.m34 * self.m41 -
  self.m14 * self.m23 * self.m31 * self.m42 +
  self.m13 * self.m24 * self.m31 * self.m42 +
  self.m14 * self.m21 * self.m33 * self.m42 -
  self.m11 * self.m24 * self.m33 * self.m42 -
  self.m13 * self.m21 * self.m34 * self.m42 +
  self.m11 * self.m23 * self.m34 * self.m42 +
  self.m14 * self.m22 * self.m31 * self.m43 -
  self.m12 * self.m24 * self.m31 * self.m43 -
  self.m14 * self.m21 * self.m32 * self.m43 +
  self.m11 * self.m24 * self.m32 * self.m43 +
  self.m12 * self.m21 * self.m34 * self.m43 -
  self.m11 * self.m22 * self.m34 * self.m43 -
  self.m13 * self.m22 * self.m31 * self.m44 +
  self.m12 * self.m23 * self.m31 * self.m44 +
  self.m13 * self.m21 * self.m32 * self.m44 -
  self.m11 * self.m23 * self.m32 * self.m44 -
  self.m12 * self.m21 * self.m33 * self.m44 +
  self.m11 * self.m22 * self.m33 * self.m44

/-- `Matrix4::mul_s` from matrix.rs: scale every entry by a scalar. -/
def mul_s (self : Matrix4) (x : ℚ) : Matrix4 :=
  Matrix4.new (self.m11 * x) (self.m12 * x) (self.m13 * x) (self.m14 * x)
              (self.m21 * x) (self.m22 * x) (self.m23 * x) (self.m24 * x)
              (self.m31 * x) (self.m32 * x) (self.m33 * x) (self.m34 * x)
              (self.m41 * x) (self.m42 * x) (self.m43 * x) (self.m44 * x)

/-- `Matrix4::invert` from matrix.rs: identity fallback on zero determinant,
otherwise the unrolled cofactor-transpose matrix scaled by `1/det`. -/
def invert (self : Matrix4) : Matrix4 :=
  let det := self.determinant
  if det = 0 then Matrix4.identity
  else
    (Matrix4.new
      (self.m23*self.m34*self.m42 - self.m24*self.m33*self.m42 +
       self.m24*self.m32*self.m43 - self.m22*self.m34*self.m43 -
       self.m23*self.m32*self.m44 + self.m22*self.m33*self.m44)
      (self.m14*self.m33*self.m42 - self.m13*self.m34*self.m42 -
       self.m14*self.m32*self.m43 + self.m12*self.m34*self.m43 +
       self.m13*self.m32*self.m44 - self.m12*self.m33*self.m44)
      (self.m13*self.m24*self.m42 - self.m14*self.m23*self.m42 +
       self.m14*self.m22*self.m43 - self.m12*self.m24*self.m43 -
       self.m13*self.m22*self.m44 + self.m12*self.m23*self.m44)
      (self.m14*self.m23*self.m32 - self.m13*self.m24*self.m32 -
       self.m14*self.m22*self.m33 + self.m12*self.m24*self.m33 +
       self.m13*self.m22*self.m34 - self.m12*self.m23*self.m34)
      (self.m24*self.m33*self.m41 - self.m23*self.m34*self.m41 -
       self.m24*self.m31*self.m43 + self.m21*self.m34*self.m43 +
       self.m23*self.m31*self.m44 - self.m21*self.m33*self.m44)
      (self.m13*self.m34*self.m41 - self.m14*self.m33*self.m41 +
       self.m14*self.m31*self.m43 - self.m11*self.m34*self.m43 -
       self.m13*self.m31*self.m44 + self.m11*self.m33*self.m44)
      (self.m14*self.m23*self.m41 - self.m13*self.m24*self.m41 -
       self.m14*self.m21*self.m43 + self.m11*self.m24*self.m43 +
       self.m13*self.m21*self.m44 - self.m11*self.m23*self.m44)
      (self.m13*self.m24*self.m31 - self.m14*self.m23*self.m31 +
       self.m14*self.m21*self.m33 - self.m11*self.m24*self.m33 -
       self.m13*self.m21*self.m34 + self.m11*self.m23*self.m34)
      (self.m22*self.m34*self.m41 - self.m24*self.m32*self.m41 +
       self.m24*self.m31*self.m42 - self.m21*self.m34*self.m42 -
       self.m22*self.m31*self.m44 + self.m21*self.m32*self.m44)
      (self.m14*self.m32*self.m41 - self.m12*self.m34*self.m41 -
       self.m14*self.m31*self.m42 + self.m11*self.m34*self.m42 +
       self.m12*self.m31*self.m44 - self.m11*self.m32*self.m44)
      (self.m12*self.m24*self.m41 - self.m14*self.m22*self.m41 +
       self.m14*self.m21*self.m42 - self.m11*self.m24*self.m42 -
       self.m12*self.m21*self.m44 + self.m11*self.m22*self.m44)
      (self.m14*self.m22*self.m31 - self.m12*self.m24*self.m31 -
       self.m14*self.m21*self.m32 + self.m11*self.m24*self.m32 +
       self.m12*self.m21*self.m34 - self.m11*self.m22*self.m34)
      (self.m23*self.m32*self.m41 - self.m22*self.m33*self.m41 -
       self.m23*self.m31*self.m42 + self.m21*self.m33*self.m42 +
       self.m22*self.m31*self.m43 - self.m21*self.m32*self.m43)
      (self.m12*self.m33*self.m41 - self.m13*self.m32*self.m41 +
       self.m13*self.m31*self.m42 - self.m11*self.m33*self.m42 -
       self.m12*self.m31*self.m43 + self.m11*self.m32*self.m43)
      (self.m13*self.m22*self.m41 - self.m12*self.m23*self.m41 -
       self.m13*self.m21*self.m42 + self.m11*self.m23*self.m42 +
       self.m12*self.m21*self.m43 - self.m11*self.m22*self.m43)
      (self.m12*self.m23*self.m31 - self.m13*self.m22*self.m31 +
       self.m13*self.m21*self.m32 - self.m11*self.m23*self.m32 -
       self.m12*self.m21*self.m33 + self.m11*self.m22*self.m33)).mul_s (1 / det)

/-- `Matrix4::scale` from matrix.rs: multiply `m11,m22,m33` by `x,y,z`,
leaving every other entry as is. -/
def scale (self : Matrix4) (x y z : ℚ) : Matrix4 :=
  Matrix4.new (self.m11 * x) self.m12       self.m13       self.m14
              self.m21       (self.m22 * y) self.m23       self.m24
              self.m31       self.m32       (self.m33 * z) self.m34
              self.m41       self.m42       self.m43       self.m44

/-- `Matrix4::transform_point` from matrix.rs. -/
def transform_point (self : Matrix4) (p : Point2D ℚ) : Point2D ℚ :=
  Point2D.new (p.x * self.m11 + p.y * self.m21 + self.m41)
              (p.x * self.m12 + p.y * self.m22 + self.m42)

/-- `Matrix4::transform_point4d` from matrix.rs. -/
def transform_point4d (self : Matrix4) (p : Point4D ℚ) : Point4D ℚ :=
  Point4D.new (p.x * self.m11 + p.y * self.m21 + p.z * self.m31 + self.m41)
              (p.x * self.m12 + p.y * self.m22 + p.z * self.m32 + self.m42)
              (p.x * self.m13 + p.y * self.m23 + p.z * self.m33 + self.m43)
              (p.x * self.m14 + p.y * self.m24 + p.z * self.m34 + self.m44)

/-- `Matrix4::translate` from matrix.rs: build the unit-diagonal matrix with
`x,y,z` in row 4 and multiply `self` by it. -/
def translate (self : Matrix4) (x y z : ℚ) : Matrix4 :=
  let matrix := Matrix4.new 1 0 0 0
                            0 1 0 0
                            0 0 1 0
                            x y z 1
  self.mul matrix

/-- `Matrix4::create_translation` from matrix.rs. -/
def create_translation (x y z : ℚ) : Matrix4 :=
  Matrix4.new 1 0 0 0
              0 1 0 0
              0 0 1 0
              x y z 1

/-- `Matrix4::create_scale` from matrix.rs. -/
def create_scale (x y z : ℚ) : Matrix4 :=
  Matrix4.new x 0 0 0
              0 y 0 0
              0 0 z 0
              0 0 0 1

/-- Modelled from the spec: the external `ApproxEq` collaborator (approxeq.rs,
not under src/) "compares two floating values within an implementation-defined
tolerance", applied componentwise to all 16 entries by `Matrix4::approx_eq`.
We keep the tolerance `eps` as a parameter. -/
def approx_eq (eps : ℚ) (a b : Matrix4) : Prop :=
  |a.m11 - b.m11| ≤ eps ∧ |a.m12 - b.m12| ≤ eps ∧
  |a.m13 - b.m13| ≤ eps ∧ |a.m14 - b.m14| ≤ eps ∧
  |a.m21 - b.m21| ≤ eps ∧ |a.m22 - b.m22| ≤ eps ∧
  |a.m23 - b.m23| ≤ eps ∧ |a.m24 - b.m24| ≤ eps ∧
  |a.m31 - b.m31| ≤ eps ∧ |a.m32 - b.m32| ≤ eps ∧
  |a.m33 - b.m33| ≤ eps ∧ |a.m34 - b.m34| ≤ eps ∧
  |a.m41 - b.m41| ≤ eps ∧ |a.m42 - b.m42| ≤ eps ∧
  |a.m43 - b.m43| ≤ eps ∧ |a.m44 - b.m44| ≤ eps

instance (eps : ℚ) (a b : Matrix4) : Decidable (approx_eq eps a b) := by
  unfold approx_eq
  infer_instance

/-- Spec-side definition for claim C1, following the claim's words only:
"result entry (i,j) = sum over k of A.m{i}{k} * B.m{k}{j}" for `A.mul(B)`,
i.e. the standard row-major product of `self` by `other`. -/
def mulSpecC1 (A B : Matrix4) : Matrix4 :=
  Matrix4.new
    (A.m11*B.m11 + A.m12*B.m21 + A.m13*B.m31 + A.m14*B.m41)
    (A.m11*B.m12 + A.m12*B.m22 + A.m13*B.m32 + A.m14*B.m42)
    (A.m11*B.m13 + A.m12*B.m23 + A.m13*B.m33 + A.m14*B.m43)
    (A.m11*B.m14 + A.m12*B.m24 + A.m13*B.m34 + A.m14*B.m44)
    (A.m21*B.m11 + A.m22*B.m21 + A.m23*B.m31 + A.m24*B.m41)
    (A.m21*B.m12 + A.m22*B.m22 + A.m23*B.m32 + A.m24*B.m42)
    (A.m21*B.m13 + A.m22*B.m23 + A.m23*B.m33 + A.m24*B.m43)
    (A.m21*B.m14 + A.m22*B.m24 + A.m23*B.m34 + A.m24*B.m44)
    (A.m31*B.m11 + A.m32*B.m21 + A.m33*B.m31 + A.m34*B.m41)
    (A.m31*B.m12 + A.m32*B.m22 + A.m33*B.m32 + A.m34*B.m42)
    (A.m31*B.m13 + A.m32*B.m23 + A.m33*B.m33 + A.m34*B.m43)
    (A.m31*B.m14 + A.m32*B.m24 + A.m33*B.m34 + A.m34*B.m44)
    (A.m41*B.m11 + A.m42*B.m21 + A.m43*B.m31 + A.m44*B.m41)
    (A.m41*B.m12 + A.m42*B.m22 + A.m43*B.m32 + A.m44*B.m42)
    (A.m41*B.m13 + A.m42*B.m23 + A.m43*B.m33 + A.m44*B.m43)
    (A.m41*B.m14 + A.m42*B.m24 + A.m43*B.m34 + A.m44*B.m44)

/-- Amended wiring for claim C1, the swap the counterexample forces:
result entry (i,j) = sum over k of B.m{i}{k} * A.m{k}{j} for `A.mul(B)`
(the result's row i recombines A's rows with B's row-i coefficients). -/
def mulAmendedC1 (A B : Matrix4) : Matrix4 :=
  Matrix4.new
    (B.m11*A.m11 + B.m12*A.m21 + B.m13*A.m31 + B.m14*A.m41)
    (B.m11*A.m12 + B.m12*A.m22 + B.m13*A.m32 + B.m14*A.m42)
    (B.m11*A.m13 + B.m12*A.m23 + B.m13*A.m33 + B.m14*A.m43)
    (B.m11*A.m14 + B.m12*A.m24 + B.m13*A.m34 + B.m14*A.m44)
    (B.m21*A.m11 + B.m22*A.m21 + B.m23*A.m31 + B.m24*A.m41)
    (B.m21*A.m12 + B.m22*A.m22 + B.m23*A.m32 + B.m24*A.m42)
    (B.m21*A.m13 + B.m22*A.m23 + B.m23*A.m33 + B.m24*A.m43)
    (B.m21*A.m14 + B.m22*A.m24 + B.m23*A.m34 + B.m24*A.m44)
    (B.m31*A.m11 + B.m32*A.m21 + B.m33*A.m31 + B.m34*A.m41)
    (B.m31*A.m12 + B.m32*A.m22 + B.m33*A.m32 + B.m34*A.m42)
    (B.m31*A.m13 + B.m32*A.m23 + B.m33*A.m33 + B.m34*A.m43)
    (B.m31*A.m14 + B.m32*A.m24 + B.m33*A.m34 + B.m34*A.m44)
    (B.m41*A.m11 + B.m42*A.m21 + B.m43*A.m31 + B.m44*A.m41)
    (B.m41*A.m12 + B.m42*A.m22 + B.m43*A.m32 + B.m44*A.m42)
    (B.m41*A.m13 + B.m42*A.m23 + B.m43*A.m33 + B.m44*A.m43)
    (B.m41*A.m14 + B.m42*A.m24 + B.m43*A.m34 + B.m44*A.m44)

/-- Determinant of a 3×3 matrix given row by row; used to state the spec's
"3×3 minors" for the cofactor matrix. -/
def det3 (a b c d e f g h i : ℚ) : ℚ :=
  a * (e * i - f * h) - b * (d * i - f * g) + c * (d * h - e * g)

/-- Spec-side cofactor matrix: entry (i,j) is `(-1)^(i+j)` times the
determinant of the 3×3 minor obtained by deleting row i and column j. -/
def cofactorSpec (M : Matrix4) : Matrix4 :=
  Matrix4.new
    (det3 M.m22 M.m23 M.m24 M.m32 M.m33 M.m34 M.m42 M.m43 M.m44)
    (-(det3 M.m21 M.m23 M.m24 M.m31 M.m33 M.m34 M.m41 M.m43 M.m44))
    (det3 M.m21 M.m22 M.m24 M.m31 M.m32 M.m34 M.m41 M.m42 M.m44)
    (-(det3 M.m21 M.m22 M.m23 M.m31 M.m32 M.m33 M.m41 M.m42 M.m43))
    (-(det3 M.m12 M.m13 M.m14 M.m32 M.m33 M.m34 M.m42 M.m43 M.m44))
    (det3 M.m11 M.m13 M.m14 M.m31 M.m33 M.m34 M.m41 M.m43 M.m44)
    (-(det3 M.m11 M.m12 M.m14 M.m31 M.m32 M.m34 M.m41 M.m42 M.m44))
    (det3 M.m11 M.m12 M.m13 M.m31 M.m32 M.m33 M.m41 M.m42 M.m43)
    (det3 M.m12 M.m13 M.m14 M.m22 M.m23 M.m24 M.m42 M.m43 M.m44)
    (-(det3 M.m11 M.m13 M.m14 M.m21 M.m23 M.m24 M.m41 M.m43 M.m44))
    (det3 M.m11 M.m12 M.m14 M.m21 M.m22 M.m24 M.m41 M.m42 M.m44)
    (-(det3 M.m11 M.m12 M.m13 M.m21 M.m22 M.m23 M.m41 M.m42 M.m43))
    (-(det3 M.m12 M.m13 M.m14 M.m22 M.m23 M.m24 M.m32 M.m33 M.m34))
    (det3 M.m11 M.m13 M.m14 M.m21 M.m23 M.m24 M.m31 M.m33 M.m34)
    (-(det3 M.m11 M.m12 M.m14 M.m21 M.m22 M.m24 M.m31 M.m32 M.m34))
    (det3 M.m11 M.m12 M.m13 M.m21 M.m22 M.m23 M.m31 M.m32 M.m33)

/-- Transpose of a `Matrix4`; used to state the spec's "transpose of the
cofactor matrix". -/
def transposeSpec (M : Matrix4) : Matrix4 :=
  Matrix4.new M.m11 M.m21 M.m31 M.m41
              M.m12 M.m22 M.m32 M.m42
              M.m13 M.m23 M.m33 M.m43
              M.m14 M.m24 M.m34 M.m44

/-- Spec-side adjugate: the transpose of the cofactor matrix. -/
def adjugateSpec (M : Matrix4) : Matrix4 :=
  transposeSpec (cofactorSpec M)

end Matrix4

/-! ## Shared helper lemmas -/

/-- Exact equality implies componentwise approximate equality at every
nonnegative tolerance. -/
theorem Matrix4.approx_eq_of_eq {a b : Matrix4} {eps : ℚ} (hab : a = b)
    (heps : 0 ≤ eps) : Matrix4.approx_eq eps a b := by
  subst hab
  unfold Matrix4.approx_eq
  simp [heps]

/-- The unrolled cofactor-transpose inside `invert` coincides with the
spec-side adjugate, so on a nonzero determinant `invert` is the adjugate
scaled by `1/det`. -/
theorem Matrix4.invert_eq_scaled_adjugate (M : Matrix4)
    (h : M.determinant ≠ 0) :
    M.invert = (Matrix4.adjugateSpec M).mul_s (1 / M.determinant) := by
  unfold Matrix4.invert
  simp only [if_neg h]
  ext <;>
    simp only [Matrix4.mul_s, Matrix4.new, Matrix4.adjugateSpec,
      Matrix4.transposeSpec, Matrix4.cofactorSpec, Matrix4.det3] <;>
    ring

set_option maxHeartbeats 1600000 in
/-- For a matrix with nonzero determinant, multiplying by its inverse yields
the identity exactly (over the exact field ℚ). -/
theorem Matrix4.mul_invert_eq_identity (M : Matrix4)
    (h : M.determinant ≠ 0) : M.mul M.invert = Matrix4.identity := by
  rw [Matrix4.invert_eq_scaled_adjugate M h]
  ext <;>
    simp only [Matrix4.mul, Matrix4.mul_s, Matrix4.new, Matrix4.identity,
      Matrix4.adjugateSpec, Matrix4.transposeSpec, Matrix4.cofactorSpec,
      Matrix4.det3] <;>
    field_simp [h] <;>
    (try unfold Matrix4.determinant) <;>
    ring

/-! ## Claim theorems -/

/-- C1 counterexample: the claimed wiring `result (i,j) = Σ_k A.m{i}{k} *
B.m{k}{j}` fails at `A = E₁₂`, `B = E₂₁` — the code computes 0 in entry
(1,1) while the claimed formula computes 1. -/
theorem mul_wiring_claim_counterexample :
    (Matrix4.new 0 1 0 0 0 0 0 0 0 0 0 0 0 0 0 0).mul
        (Matrix4.new 0 0 0 0 1 0 0 0 0 0 0 0 0 0 0 0) ≠
      Matrix4.mulSpecC1 (Matrix4.new 0 1 0 0 0 0 0 0 0 0 0 0 0 0 0 0)
        (Matrix4.new 0 0 0 0 1 0 0 0 0 0 0 0 0 0 0 0) := by
  intro hEq
  have h11 := congrArg Matrix4.m11 hEq
  simp only [Matrix4.mul, Matrix4.mulSpecC1, Matrix4.new] at h11
  norm_num at h11

/-- C1 (amended): `A.mul(B)` is wired as result entry (i,j) = Σ_k B.m{i}{k} *
A.m{k}{j}: the result's row i is the linear combination of B's (other's)
row-i coefficients applied to A's (self's) full matrix. -/
theorem mul_wiring_amended (A B : Matrix4) :
    A.mul B = Matrix4.mulAmendedC1 A B := rfl

/-- C2: `invert` returns the identity exactly when the determinant is 0, and
otherwise the adjugate (transpose of the cofactor matrix) scaled entrywise by
`1/determinant`. -/
theorem invert_eq_identity_or_scaled_adjugate (M : Matrix4) :
    M.invert =
      if M.determinant = 0 then Matrix4.identity
      else (Matrix4.adjugateSpec M).mul_s (1 / M.determinant) := by
  unfold Matrix4.invert
  by_cases h : M.determinant = 0
  · simp [h]
  · simp only [h, if_false]
    ext <;>
      simp only [Matrix4.mul_s, Matrix4.new, Matrix4.adjugateSpec,
        Matrix4.transposeSpec, Matrix4.cofactorSpec, Matrix4.det3] <;>
      ring

/-- C3: for every matrix with nonzero determinant, `M.mul(M.invert())`
approximates the identity componentwise at every nonnegative tolerance
(over the exact field ℚ the product is the identity exactly). -/
theorem mul_invert_approx_identity (M : Matrix4) (h : M.determinant ≠ 0)
    (eps : ℚ) (heps : 0 ≤ eps) :
    Matrix4.approx_eq eps (M.mul M.invert) Matrix4.identity :=
  Matrix4.approx_eq_of_eq (Matrix4.mul_invert_eq_identity M h) heps

/-- Witness for C3 at the concrete translation matrix with offsets
(100, 200, 0), whose determinant is 1. -/
theorem mul_invert_approx_identity_witness :
    (Matrix4.create_translation 100 200 0).determinant ≠ 0 ∧
      Matrix4.approx_eq 0
        ((Matrix4.create_translation 100 200 0).mul
          (Matrix4.create_translation 100 200 0).invert)
        Matrix4.identity :=
  ⟨by norm_num [Matrix4.create_translation, Matrix4.determinant, Matrix4.new],
    mul_invert_approx_identity (Matrix4.create_translation 100 200 0)
      (by norm_num [Matrix4.create_translation, Matrix4.determinant, Matrix4.new])
      0 le_rfl⟩

/-- C4: the identity matrix is a two-sided multiplicative identity for `mul`,
componentwise within every nonnegative tolerance (the equality is exact). -/
theorem identity_laws (M : Matrix4) (eps : ℚ) (heps : 0 ≤ eps) :
    Matrix4.approx_eq eps (M.mul Matrix4.identity) M ∧
      Matrix4.approx_eq eps (Matrix4.identity.mul M) M := by
  constructor <;>
    refine Matrix4.approx_eq_of_eq ?_ heps <;>
    ext <;>
    simp [Matrix4.mul, Matrix4.identity, Matrix4.new]

/-- Witness for C4 at a concrete matrix and tolerance 0. -/
theorem identity_laws_witness :
    Matrix4.approx_eq 0
        ((Matrix4.new 1 2 3 4 5 6 7 8 9 10 11 12 13 14 15 17).mul
          Matrix4.identity)
        (Matrix4.new 1 2 3 4 5 6 7 8 9 10 11 12 13 14 15 17) ∧
      Matrix4.approx_eq 0
        (Matrix4.identity.mul (Matrix4.new 1 2 3 4 5 6 7 8 9 10 11 12 13 14 15 17))
        (Matrix4.new 1 2 3 4 5 6 7 8 9 10 11 12 13 14 15 17) :=
  identity_laws (Matrix4.new 1 2 3 4 5 6 7 8 9 10 11 12 13 14 15 17) 0 le_rfl

/-- C5: `translate` composes `self` with a translation matrix via `mul`:
`M.translate(x,y,z) = M.mul(create_translation(x,y,z))` exactly. -/
theorem translate_eq_mul_create_translation (M : Matrix4) (x y z : ℚ) :
    M.translate x y z = M.mul (Matrix4.create_translation x y z) := rfl

/-- C6: `scale` multiplies the diagonal entries m11, m22, m33 by x, y, z and
leaves the other 13 entries exactly unchanged. -/
theorem scale_entries (M : Matrix4) (x y z : ℚ) :
    M.scale x y z =
      Matrix4.new (M.m11 * x) M.m12 M.m13 M.m14
                  M.m21 (M.m22 * y) M.m23 M.m24
                  M.m31 M.m32 (M.m33 * z) M.m34
                  M.m41 M.m42 M.m43 M.m44 := rfl

/-- C7: `transform_point p` equals the (x, y) components of
`transform_point4d (p.x, p.y, 0, 1)` exactly, and it depends only on the
entries m11, m21, m41, m12, m22, m42 of the matrix. -/
theorem transform_point_via_point4d (M : Matrix4) (p : Point2D ℚ) :
    M.transform_point p =
        Point2D.new (M.transform_point4d (Point4D.new p.x p.y 0 1)).x
          (M.transform_point4d (Point4D.new p.x p.y 0 1)).y ∧
      ∀ N : Matrix4, M.m11 = N.m11 → M.m21 = N.m21 → M.m41 = N.m41 →
        M.m12 = N.m12 → M.m22 = N.m22 → M.m42 = N.m42 →
        M.transform_point p = N.transform_point p := by
  constructor
  · simp only [Matrix4.transform_point, Matrix4.transform_point4d,
      Point2D.new, Point4D.new]
    congr 1 <;> ring
  · intro N h11 h21 h41 h12 h22 h42
    simp only [Matrix4.transform_point, h11, h21, h41, h12, h22, h42]

/-- Witness for C7: two matrices agreeing on the six relevant entries but
differing everywhere else transform the point (3, 5) identically, and the
2D transform agrees with the 4D one there. -/
theorem transform_point_via_point4d_witness :
    ((Matrix4.new 1 2 3 4 5 6 7 8 9 10 11 12 13 14 15 17).transform_point
          (Point2D.new 3 5) =
        Point2D.new
          ((Matrix4.new 1 2 3 4 5 6 7 8 9 10 11 12 13 14 15 17).transform_point4d
            (Point4D.new 3 5 0 1)).x
          ((Matrix4.new 1 2 3 4 5 6 7 8 9 10 11 12 13 14 15 17).transform_point4d
            (Point4D.new 3 5 0 1)).y) ∧
      (Matrix4.new 1 2 3 4 5 6 7 8 9 10 11 12 13 14 15 17).transform_point
          (Point2D.new 3 5) =
        (Matrix4.new 1 2 100 200 5 6 300 400 500 600 700 800 13 14 900 1000).transform_point
          (Point2D.new 3 5) :=
  ⟨(transform_point_via_point4d
      (Matrix4.new 1 2 3 4 5 6 7 8 9 10 11 12 13 14 15 17) (Point2D.new 3 5)).1,
    (transform_point_via_point4d
        (Matrix4.new 1 2 3 4 5 6 7 8 9 10 11 12 13 14 15 17) (Point2D.new 3 5)).2
      (Matrix4.new 1 2 100 200 5 6 300 400 500 600 700 800 13 14 900 1000)
      rfl rfl rfl rfl rfl rfl⟩

/-- C8: the typed-point `cast` returns `none` exactly when the numeric cast
of at least one component signals "not exactly representable" (returns
`none`), and otherwise returns the point of the componentwise casts with the
unit tag preserved in the result type. -/
theorem cast_none_iff {Unit T0 T1 : Type} (c : T0 → Option T1)
    (p : Point2D (Length Unit T0)) :
    (Point2D.cast c p = none ↔ c p.x.get = none ∨ c p.y.get = none) ∧
      ∀ x y, c p.x.get = some x → c p.y.get = some y →
        Point2D.cast c p =
          some (Point2D.new (Length.new x) (Length.new y)) := by
  unfold Point2D.cast Length.cast
  rcases hx : c p.x.get with _ | x0 <;> rcases hy : c p.y.get with _ | y0 <;>
    simp [Option.map]

/-- Witness for C8 with the exact cast from ℤ to ℕ (negative values are not
representable) at the point (2, 3). -/
theorem cast_none_iff_witness :
    (fun n : ℤ => if n < 0 then none else some n.toNat) ((2 : ℤ)) = some 2 ∧
      (fun n : ℤ => if n < 0 then none else some n.toNat) ((3 : ℤ)) = some 3 ∧
      Point2D.cast (fun n : ℤ => if n < 0 then none else some n.toNat)
          (Point2D.new (Length.new (2 : ℤ) : Length PUnit ℤ) (Length.new 3)) =
        some (Point2D.new (Length.new 2) (Length.new 3)) := by
  refine ⟨by decide, by decide, ?_⟩
  exact (cast_none_iff (fun n : ℤ => if n < 0 then none else some n.toNat)
      (Point2D.new (Length.new (2 : ℤ)) (Length.new 3))).2 2 3
    (by decide) (by decide)

/-- C9: the 2D cross product is `a.x*b.y - a.y*b.x`, and on the concrete
points (4,7) and (13,8) it evaluates to -59. -/
theorem cross_formula :
    (∀ a b : Point2D ℚ, a.cross b = a.x * b.y - a.y * b.x) ∧
      (Point2D.new (4 : ℚ) 7).cross (Point2D.new 13 8) = -59 := by
  refine ⟨fun a b => rfl, ?_⟩
  norm_num [Point2D.cross, Point2D.new]

/-- C10: attaching and stripping the unit tag round-trips exactly in both
directions: the tag carries no runtime data and the numeric components are
unchanged. -/
theorem typed_untyped_roundtrip (Unit T : Type) (p : Point2D T)
    (q : Point2D (Length Unit T)) :
    (Point2D.from_untyped Unit p).to_untyped = p ∧
      Point2D.from_untyped Unit q.to_untyped = q := ⟨rfl, rfl⟩

end Euclid

